import Mathlib

/-!
Shallow embedding of the 6502 CPU emulator (src/main.cpp) and proofs about it.

Modelling conventions:
- Machine integers become `Nat` with explicit reduction where the C++ types
  truncate: memory cells and the 8-bit registers live mod 256, `PC`/`SP`
  mod 2^16 (`U16`), and the cycle counter mod 2^32 (`U32`).  An unsigned
  decrement `x--` is `(x + U32 - 1) % U32`.
- `assert(cond)` aborting the process is modelled as the error
  `Err.assertFail`; the `std::out_of_range` throw in `CPU::ReadByte` is
  `Err.outOfRange`; a raw out-of-bounds array store (which `Mem::WriteWord`
  performs unchecked) is undefined behavior, modelled as
  `Err.undefinedBehavior`.
- The `std::cout` diagnostic in the default opcode case is modelled as an
  output log of the integer values printed.
- The `while (Cycles > 0)` loop of `CPU::Execute` is modelled with explicit
  fuel, since the unsigned counter does not structurally decrease.
-/

namespace Emu6502

/-- Maximum size of the Data array: 1024 * 64 bytes (64KB, the 16-bit address space). -/
def MAX_MEM : Nat := 1024 * 64

/-- Modulus of the 16-bit quantities (PC, SP, words): 2 ^ 16. -/
def U16 : Nat := 65536

/-- Modulus of the 32-bit cycle counter: 2 ^ 32. -/
def U32 : Nat := 4294967296

/-- Abnormal terminations of the C++ program, one constructor per mechanism
in the source: a failed `assert` (debug abort), the `std::out_of_range`
exception thrown by `CPU::ReadByte`, and an unchecked out-of-bounds array
store (undefined behavior). -/
inductive Err where
  | assertFail : Err
  | outOfRange : Err
  | undefinedBehavior : Err
  deriving DecidableEq, Repr

/-- The memory block `Mem`: `Data` holds the 64KB byte array.  Cells are
`std::uint8_t`, so every access truncates mod 256. -/
structure Mem where
  Data : Nat → Nat

/-- `Mem::Initialise`: sets every element of the Data array to 0. -/
def Mem.Initialise (_m : Mem) : Mem := ⟨fun _ => 0⟩

/-- `Mem::operator[] const` (read 1 byte): `assert(Address < MAX_MEM); return Data[Address];`. -/
def Mem.read (m : Mem) (Address : Nat) : Except Err Nat :=
  if Address < MAX_MEM then .ok (m.Data Address % 256) else .error .assertFail

/-- `Mem::operator[]` used for writing 1 byte:
`assert(Address < MAX_MEM);` then the caller stores through the returned reference. -/
def Mem.write (m : Mem) (Address v : Nat) : Except Err Mem :=
  if Address < MAX_MEM then .ok ⟨fun i => if i = Address then v % 256 else m.Data i⟩
  else .error .assertFail

/-- A raw store `Data[Address] = v` with no bounds check, as performed by
`Mem::WriteWord`: storing past the end of the array is undefined behavior. -/
def Mem.store (m : Mem) (Address v : Nat) : Except Err Mem :=
  if Address < MAX_MEM then .ok ⟨fun i => if i = Address then v % 256 else m.Data i⟩
  else .error .undefinedBehavior

/-- `Mem::WriteWord` (write 2 bytes, little-endian, no bounds check):
`Data[Address] = Value & 0xFF; Data[Address + 1] = (Value >> 8); Cycles -= 2;`. -/
def Mem.WriteWord (m : Mem) (Value Address Cycles : Nat) : Except Err (Mem × Nat) := do
  let m1 ← m.store Address (Value % 256)
  let m2 ← m1.store (Address + 1) (Value / 256)
  .ok (m2, (Cycles + U32 - 2) % U32)

/-- The CPU register file: 16-bit `PC` and `SP`, 8-bit `A`, `X`, `Y`, and the
seven 1-bit status flags (each holds 0 or 1). -/
structure CPU where
  PC : Nat
  SP : Nat
  A : Nat
  X : Nat
  Y : Nat
  C : Nat
  Z : Nat
  I : Nat
  D : Nat
  B : Nat
  V : Nat
  N : Nat

/-- `CPU::Reset`: PC = 0xFFFC, SP = 0x0100, all flags 0, A = X = Y = 0,
and `memory.Initialise()`. -/
def CPU.Reset (_c : CPU) (memory : Mem) : CPU × Mem :=
  ({ PC := 0xFFFC, SP := 0x0100, A := 0, X := 0, Y := 0,
     C := 0, Z := 0, I := 0, D := 0, B := 0, V := 0, N := 0 },
   memory.Initialise)

/-- `CPU::FetchByte`: `Data = memory[PC]; PC++; Cycles--; return Data;`.
Returns the fetched byte, the updated CPU and the updated cycle counter. -/
def CPU.FetchByte (c : CPU) (Cycles : Nat) (memory : Mem) : Except Err (Nat × CPU × Nat) := do
  let d ← memory.read c.PC
  .ok (d, { c with PC := (c.PC + 1) % U16 }, (Cycles + U32 - 1) % U32)

/-- `CPU::FetchWord`: reads `memory[PC]` as the low byte, increments PC,
ors in `memory[PC] << 8` as the high byte, increments PC, `Cycles -= 2`. -/
def CPU.FetchWord (c : CPU) (Cycles : Nat) (memory : Mem) : Except Err (Nat × CPU × Nat) := do
  let lo ← memory.read c.PC
  let c1 : CPU := { c with PC := (c.PC + 1) % U16 }
  let hi ← memory.read c1.PC
  let c2 : CPU := { c1 with PC := (c1.PC + 1) % U16 }
  .ok ((lo ||| (hi <<< 8)) % U16, c2, (Cycles + U32 - 2) % U32)

/-- `CPU::ReadByte`: the `Address` parameter is a `std::uint8_t`; the body
checks `Address >= Mem::MAX_MEM` and throws `std::out_of_range`, then reads
`memory[Address]` and decrements the cycle counter. -/
def CPU.ReadByte (_c : CPU) (Cycles Address : Nat) (memory : Mem) : Except Err (Nat × Nat) :=
  if Address ≥ MAX_MEM then .error .outOfRange
  else do
    let d ← memory.read Address
    .ok (d, (Cycles + U32 - 1) % U32)

/-- Opcode 0xA9, LDA Immediate. -/
def INS_LDA_IM : Nat := 0xA9

/-- Opcode 0xA5, LDA Zero Page. -/
def INS_LDA_ZP : Nat := 0xA5

/-- Opcode 0xB5, LDA Zero Page X. -/
def INS_LDA_ZPX : Nat := 0xB5

/-- Opcode 0x20, JSR. -/
def INS_JSR : Nat := 0x20

/-- `CPU::LDASetStatus`: `Z = (A == 0); N = (A & 0b10000000) > 0;`. -/
def CPU.LDASetStatus (c : CPU) : CPU :=
  { c with Z := if c.A = 0 then 1 else 0,
           N := if c.A &&& 0b10000000 > 0 then 1 else 0 }

/-- The full machine state threaded through `CPU::Execute`: registers,
memory, the cycle counter, and the log of integers printed by the
unhandled-instruction diagnostic. -/
structure Machine where
  cpu : CPU
  mem : Mem
  cycles : Nat
  out : List Nat

/-- One iteration of the `while` body of `CPU::Execute`: fetch an opcode
byte and dispatch on it (LDA immediate / zero page / zero page X, JSR, or
the unhandled-instruction diagnostic). -/
def Step (ma : Machine) : Except Err Machine := do
  let (ins, c1, cy1) ← ma.cpu.FetchByte ma.cycles ma.mem
  if ins = INS_LDA_IM then do
    let (v, c2, cy2) ← c1.FetchByte cy1 ma.mem
    let c3 : CPU := { c2 with A := v }
    .ok { ma with cpu := c3.LDASetStatus, cycles := cy2 }
  else if ins = INS_LDA_ZP then do
    let (zp, c2, cy2) ← c1.FetchByte cy1 ma.mem
    let (v, cy3) ← c2.ReadByte cy2 zp ma.mem
    let c3 : CPU := { c2 with A := v }
    .ok { ma with cpu := c3.LDASetStatus, cycles := cy3 }
  else if ins = INS_LDA_ZPX then do
    let (zp, c2, cy2) ← c1.FetchByte cy1 ma.mem
    let zpx := (zp + c2.X) % 256
    let cy2b := (cy2 + U32 - 1) % U32
    let (v, cy3) ← c2.ReadByte cy2b zpx ma.mem
    let c3 : CPU := { c2 with A := v }
    .ok { ma with cpu := c3.LDASetStatus, cycles := cy3 }
  else if ins = INS_JSR then do
    let (SubAddr, c2, cy2) ← c1.FetchWord cy1 ma.mem
    let (m2, cy3) ← ma.mem.WriteWord ((c2.PC + U16 - 1) % U16) c2.SP cy2
    let c3 : CPU := { c2 with PC := SubAddr, SP := (c2.SP + 1) % U16 }
    .ok { ma with cpu := c3, mem := m2, cycles := (cy3 + U32 - 1) % U32 }
  else
    .ok { ma with cpu := c1, cycles := cy1, out := ma.out ++ [ins] }

/-- `CPU::Execute`: `while (Cycles > 0) { ...one Step... }`, with explicit
fuel bounding the number of iterations.  `.ok (some ma)` means the loop
exited normally (cycle counter reached 0 at an opcode boundary) leaving
state `ma`; `.ok none` means the fuel ran out with the loop still running;
`.error e` means the body aborted. -/
def ExecuteFuel : Nat → Machine → Except Err (Option Machine)
  | 0, _ => .ok none
  | fuel + 1, ma =>
    if ma.cycles > 0 then do
      let ma2 ← Step ma
      ExecuteFuel fuel ma2
    else .ok (some ma)

/-- Observation: the cycle counter after a successful step. -/
def cyclesAfter : Except Err Machine → Option Nat
  | .ok ma => some ma.cycles
  | .error _ => none

/-- Observation: the diagnostic log after a successful step. -/
def outAfter : Except Err Machine → Option (List Nat)
  | .ok ma => some ma.out
  | .error _ => none

/-- Observation: whether the fuelled while-loop was still running when the
fuel ran out (it had neither exited normally nor aborted). -/
def stillRunning : Except Err (Option Machine) → Bool
  | .ok none => true
  | _ => false

/-- The all-zero memory image. -/
def zeroMem : Mem := ⟨fun _ => 0⟩

/-- A freshly reset CPU (the register file produced by `CPU::Reset`). -/
def resetCPU : CPU :=
  { PC := 0xFFFC, SP := 0x0100, A := 0, X := 0, Y := 0,
    C := 0, Z := 0, I := 0, D := 0, B := 0, V := 0, N := 0 }

/-- Memory image holding the two-byte program `LDA #$84` at the reset
location 0xFFFC. -/
def memLdaIm : Mem := ⟨fun a => if a = 0xFFFC then 0xA9 else if a = 0xFFFD then 0x84 else 0⟩

/-- The LDA #$84 program started with a cycle budget of 1, smaller than the
2 cycles of the one instruction in flight. -/
def maBudget1 : Machine := { cpu := resetCPU, mem := memLdaIm, cycles := 1, out := [] }

/-- The LDA #$84 program started with a cycle budget of 2. -/
def maLdaIm : Machine := { cpu := resetCPU, mem := memLdaIm, cycles := 2, out := [] }

/-- Memory image holding `LDA $10` (zero page) at 0xFFFC with 0x42 stored at
address 0x10. -/
def memLdaZp : Mem :=
  ⟨fun a => if a = 0xFFFC then 0xA5 else if a = 0xFFFD then 0x10
    else if a = 0x10 then 0x42 else 0⟩

/-- The LDA $10 program started with a cycle budget of 3. -/
def maLdaZp : Machine := { cpu := resetCPU, mem := memLdaZp, cycles := 3, out := [] }

/-- Memory image holding `LDA $05,X` at 0xFFFC, with 0x37 stored at the
wrapped zero-page address 0x04 and 0x99 at the unwrapped address 0x104. -/
def memLdaZpx : Mem :=
  ⟨fun a => if a = 0xFFFC then 0xB5 else if a = 0xFFFD then 0x05
    else if a = 0x04 then 0x37 else if a = 0x104 then 0x99 else 0⟩

/-- The LDA $05,X program run with X = 0xFF and a cycle budget of 4. -/
def maLdaZpx : Machine :=
  { cpu := { resetCPU with X := 0xFF }, mem := memLdaZpx, cycles := 4, out := [] }

/-- Memory image holding `JSR $4242` at 0xFFFC (the program of `main`). -/
def memJsr : Mem :=
  ⟨fun a => if a = 0xFFFC then 0x20 else if a = 0xFFFD then 0x42
    else if a = 0xFFFE then 0x42 else 0⟩

/-- The JSR $4242 program started from the reset state (SP = 0x0100) with a
cycle budget of 9. -/
def maJsr : Machine := { cpu := resetCPU, mem := memJsr, cycles := 9, out := [] }

/-- The JSR $4242 program started with the stack pointer at the very last
memory address 0xFFFF. -/
def maJsrTopSP : Machine :=
  { cpu := { resetCPU with SP := 0xFFFF }, mem := memJsr, cycles := 9, out := [] }

/-- Memory image consisting entirely of the unassigned opcode byte 0xFF. -/
def memFF : Mem := ⟨fun _ => 0xFF⟩

/-- The all-0xFF image run from PC = 0xFFFC with a cycle budget of 3. -/
def maUnknownA : Machine := { cpu := resetCPU, mem := memFF, cycles := 3, out := [] }

/-- The all-0xFF image run from PC = 0x1234 with a cycle budget of 3: it
differs from `maUnknownA` only in the program counter. -/
def maUnknownB : Machine :=
  { cpu := { resetCPU with PC := 0x1234 }, mem := memFF, cycles := 3, out := [] }

/-- Memory image with 0x34 stored at the top address 0xFFFF and 0x12 at
address 0x0000, for fetching a word across the wraparound boundary. -/
def memWrap : Mem := ⟨fun a => if a = 0xFFFF then 0x34 else if a = 0 then 0x12 else 0⟩

/-- A CPU whose program counter sits at the very last address 0xFFFF. -/
def cpuWrap : CPU := { resetCPU with PC := 0xFFFF }

lemma U16_pos : 0 < U16 := by norm_num [U16]

lemma MAX_MEM_eq : MAX_MEM = U16 := by norm_num [MAX_MEM, U16]

/-- Two successive unsigned-32 decrements combine into one. -/
lemma decTwice (x a b : Nat) (ha : a ≤ U32) (hab : a + b ≤ U32) :
    ((x + U32 - a) % U32 + U32 - b) % U32 = (x + U32 - (a + b)) % U32 := by
  simp only [U32] at *
  omega

/-- Incrementing the 16-bit PC twice with wraparound is addition of 2. -/
lemma pcTwo (x : Nat) : ((x + 1) % U16 + 1) % U16 = (x + 2) % U16 := by
  simp only [U16]
  omega

/-- The byte test `(v & 0b10000000) > 0` reads bit 7. -/
lemma andBit7 (v : Nat) : (0 < v &&& 128) ↔ v.testBit 7 = true := by
  have h : (128 : Nat) = 2 ^ 7 := by norm_num
  rw [h, Nat.and_two_pow]
  cases hb : v.testBit 7 <;> simp

/-- The zero-flag assignment of `LDASetStatus` is 1 exactly on a zero byte. -/
lemma ifZ (v : Nat) : ((if v = 0 then (1 : Nat) else 0) = 1) ↔ v = 0 := by
  split_ifs with h <;> simp [h]

/-- The negative-flag assignment of `LDASetStatus` is 1 exactly when bit 7
of the byte is set. -/
lemma ifN (v : Nat) : ((if v &&& 128 > 0 then (1 : Nat) else 0) = 1) ↔ v.testBit 7 = true := by
  rw [← andBit7]
  split_ifs with h <;> simp [h]

/-- Two successive unsigned-32 decrements by 1 amount to a decrement by 2. -/
lemma dec1dec1 (x : Nat) :
    ((x + U32 - 1) % U32 + U32 - 1) % U32 = (x + U32 - 2) % U32 := by
  simp only [U32]
  omega

/-- Four successive unsigned-32 decrements by 1 amount to a decrement by 4. -/
lemma dec1x4 (x : Nat) :
    (((((x + U32 - 1) % U32 + U32 - 1) % U32 + U32 - 1) % U32 + U32 - 1) % U32
      = (x + U32 - 4) % U32) := by
  simp only [U32]
  omega

/-- The unsigned-32 decrement chain of a JSR step (1, 2, 2, 1) amounts to a
decrement by 6. -/
lemma decJsr (x : Nat) :
    (((((x + U32 - 1) % U32 + U32 - 2) % U32 + U32 - 2) % U32 + U32 - 1) % U32
      = (x + U32 - 6) % U32) := by
  simp only [U32]
  omega

/-- Unfolding of `CPU::FetchByte` when PC is a 16-bit value (the assert
never fires). -/
lemma fetchByte_eq (c : CPU) (cy : Nat) (m : Mem) (h : c.PC < U16) :
    c.FetchByte cy m =
      .ok (m.Data c.PC % 256, { c with PC := (c.PC + 1) % U16 }, (cy + U32 - 1) % U32) := by
  unfold CPU.FetchByte Mem.read
  rw [if_pos (MAX_MEM_eq ▸ h)]
  rfl

/-- Unfolding of `CPU::FetchWord` when PC is a 16-bit value: the low byte is
read at PC, the high byte at (PC + 1) mod 2^16. -/
lemma fetchWord_eq (c : CPU) (cy : Nat) (m : Mem) (h : c.PC < U16) :
    c.FetchWord cy m =
      .ok (((m.Data c.PC % 256) ||| ((m.Data ((c.PC + 1) % U16) % 256) <<< 8)) % U16,
        { c with PC := ((c.PC + 1) % U16 + 1) % U16 }, (cy + U32 - 2) % U32) := by
  unfold CPU.FetchWord Mem.read
  rw [if_pos (MAX_MEM_eq ▸ h)]
  simp only [bind, Except.bind]
  rw [if_pos (MAX_MEM_eq ▸ Nat.mod_lt _ U16_pos : (c.PC + 1) % U16 < MAX_MEM)]

/-- Unfolding of `CPU::ReadByte` on an in-range address: neither the
`std::out_of_range` throw nor the assert fires. -/
lemma readByte_eq (c : CPU) (cy a : Nat) (m : Mem) (h : a < MAX_MEM) :
    c.ReadByte cy a m = .ok (m.Data a % 256, (cy + U32 - 1) % U32) := by
  unfold CPU.ReadByte Mem.read
  rw [if_neg (not_le.mpr h), if_pos h]
  rfl

/-- Unfolding of `Mem::WriteWord` when both touched addresses are in range:
low byte at `a`, high byte at `a + 1`, two cycles consumed. -/
lemma writeWord_eq (m : Mem) (v a cy : Nat) (h : a + 1 < MAX_MEM) :
    m.WriteWord v a cy =
      .ok (⟨fun i => if i = a + 1 then v / 256 % 256
              else if i = a then v % 256 % 256 else m.Data i⟩,
        (cy + U32 - 2) % U32) := by
  unfold Mem.WriteWord Mem.store
  rw [if_pos (Nat.lt_of_succ_lt h)]
  simp only [bind, Except.bind]
  rw [if_pos h]

/-- One `Execute` iteration on the opcode 0xA9: LDA Immediate. -/
lemma step_lda_im (ma : Machine) (hPC : ma.cpu.PC < U16)
    (hop : ma.mem.Data ma.cpu.PC % 256 = INS_LDA_IM) :
    Step ma = .ok { ma with
      cpu := { ma.cpu with
        PC := ((ma.cpu.PC + 1) % U16 + 1) % U16,
        A := ma.mem.Data ((ma.cpu.PC + 1) % U16) % 256,
        Z := if ma.mem.Data ((ma.cpu.PC + 1) % U16) % 256 = 0 then 1 else 0,
        N := if ma.mem.Data ((ma.cpu.PC + 1) % U16) % 256 &&& 128 > 0 then 1 else 0 },
      cycles := ((ma.cycles + U32 - 1) % U32 + U32 - 1) % U32 } := by
  unfold Step
  rw [fetchByte_eq _ _ _ hPC, hop]
  simp only [bind, Except.bind, INS_LDA_IM]
  rw [fetchByte_eq _ _ _ (Nat.mod_lt _ U16_pos : (ma.cpu.PC + 1) % U16 < U16)]
  simp only [CPU.LDASetStatus]
  rfl

/-- One `Execute` iteration on the opcode 0xA5: LDA Zero Page. -/
lemma step_lda_zp (ma : Machine) (hPC : ma.cpu.PC < U16)
    (hop : ma.mem.Data ma.cpu.PC % 256 = INS_LDA_ZP) :
    Step ma = .ok { ma with
      cpu := { ma.cpu with
        PC := ((ma.cpu.PC + 1) % U16 + 1) % U16,
        A := ma.mem.Data (ma.mem.Data ((ma.cpu.PC + 1) % U16) % 256) % 256,
        Z := if ma.mem.Data (ma.mem.Data ((ma.cpu.PC + 1) % U16) % 256) % 256 = 0
          then 1 else 0,
        N := if ma.mem.Data (ma.mem.Data ((ma.cpu.PC + 1) % U16) % 256) % 256 &&& 128 > 0
          then 1 else 0 },
      cycles := (((ma.cycles + U32 - 1) % U32 + U32 - 1) % U32 + U32 - 1) % U32 } := by
  unfold Step
  rw [fetchByte_eq _ _ _ hPC, hop]
  simp only [bind, Except.bind, INS_LDA_IM, INS_LDA_ZP]
  rw [if_neg (by norm_num), fetchByte_eq _ _ _ (Nat.mod_lt _ U16_pos : (ma.cpu.PC + 1) % U16 < U16)]
  simp only [bind, Except.bind]
  rw [readByte_eq _ _ _ _ (lt_of_lt_of_le (Nat.mod_lt _ (by norm_num)) (by norm_num [MAX_MEM]))]
  simp only [CPU.LDASetStatus]
  rfl

/-- One `Execute` iteration on the opcode 0xB5: LDA Zero Page,X.  The
effective address is the zero-page byte plus X truncated to 8 bits. -/
lemma step_lda_zpx (ma : Machine) (hPC : ma.cpu.PC < U16)
    (hop : ma.mem.Data ma.cpu.PC % 256 = INS_LDA_ZPX) :
    Step ma = .ok { ma with
      cpu := { ma.cpu with
        PC := ((ma.cpu.PC + 1) % U16 + 1) % U16,
        A := ma.mem.Data ((ma.mem.Data ((ma.cpu.PC + 1) % U16) % 256 + ma.cpu.X) % 256) % 256,
        Z := if ma.mem.Data ((ma.mem.Data ((ma.cpu.PC + 1) % U16) % 256 + ma.cpu.X) % 256) % 256 = 0
          then 1 else 0,
        N := if ma.mem.Data ((ma.mem.Data ((ma.cpu.PC + 1) % U16) % 256 + ma.cpu.X) % 256) % 256 &&& 128 > 0
          then 1 else 0 },
      cycles := ((((ma.cycles + U32 - 1) % U32 + U32 - 1) % U32 + U32 - 1) % U32 + U32 - 1) % U32 } := by
  unfold Step
  rw [fetchByte_eq _ _ _ hPC, hop]
  simp only [bind, Except.bind, INS_LDA_IM, INS_LDA_ZP, INS_LDA_ZPX]
  rw [if_neg (by norm_num), if_neg (by norm_num),
    fetchByte_eq _ _ _ (Nat.mod_lt _ U16_pos : (ma.cpu.PC + 1) % U16 < U16)]
  simp only [bind, Except.bind]
  rw [readByte_eq _ _ _ _ (lt_of_lt_of_le (Nat.mod_lt _ (by norm_num)) (by norm_num [MAX_MEM]))]
  simp only [CPU.LDASetStatus]
  rfl

/-- One `Execute` iteration on the opcode 0x20: JSR, for a stack pointer
whose word write stays inside memory. -/
lemma step_jsr (ma : Machine) (hPC : ma.cpu.PC < U16) (hSP : ma.cpu.SP + 1 < U16)
    (hop : ma.mem.Data ma.cpu.PC % 256 = INS_JSR) :
    Step ma = .ok { ma with
      cpu := { ma.cpu with
        PC := ((ma.mem.Data ((ma.cpu.PC + 1) % U16) % 256) |||
          (ma.mem.Data (((ma.cpu.PC + 1) % U16 + 1) % U16) % 256) <<< 8) % U16,
        SP := (ma.cpu.SP + 1) % U16 },
      mem := ⟨fun i => if i = ma.cpu.SP + 1
        then (((((ma.cpu.PC + 1) % U16 + 1) % U16 + 1) % U16 + U16 - 1) % U16) / 256 % 256
        else if i = ma.cpu.SP
        then (((((ma.cpu.PC + 1) % U16 + 1) % U16 + 1) % U16 + U16 - 1) % U16) % 256 % 256
        else ma.mem.Data i⟩,
      cycles := ((((ma.cycles + U32 - 1) % U32 + U32 - 2) % U32 + U32 - 2) % U32 + U32 - 1) % U32 } := by
  unfold Step
  rw [fetchByte_eq _ _ _ hPC, hop]
  simp only [bind, Except.bind, INS_LDA_IM, INS_LDA_ZP, INS_LDA_ZPX, INS_JSR]
  rw [if_neg (by norm_num), if_neg (by norm_num), if_neg (by norm_num),
    fetchWord_eq _ _ _ (Nat.mod_lt _ U16_pos : (ma.cpu.PC + 1) % U16 < U16)]
  simp only [bind, Except.bind]
  rw [writeWord_eq _ _ _ _ (MAX_MEM_eq ▸ hSP)]
  rfl

/-- One `Execute` iteration on an opcode with no table entry: the default
case prints the instruction byte and falls out of the switch. -/
lemma step_unknown (ma : Machine) (ins : Nat) (hPC : ma.cpu.PC < U16)
    (hop : ma.mem.Data ma.cpu.PC % 256 = ins)
    (h1 : ins ≠ INS_LDA_IM) (h2 : ins ≠ INS_LDA_ZP)
    (h3 : ins ≠ INS_LDA_ZPX) (h4 : ins ≠ INS_JSR) :
    Step ma = .ok { ma with
      cpu := { ma.cpu with PC := (ma.cpu.PC + 1) % U16 },
      cycles := (ma.cycles + U32 - 1) % U32,
      out := ma.out ++ [ins] } := by
  unfold Step
  rw [fetchByte_eq _ _ _ hPC, hop]
  simp only [bind, Except.bind]
  rw [if_neg h1, if_neg h2, if_neg h3, if_neg h4]

/-- One unfolding of the `while (Cycles > 0)` loop of `CPU::Execute` when
the condition holds. -/
lemma executeFuel_succ (fuel : Nat) (ma : Machine) (h : 0 < ma.cycles) :
    ExecuteFuel (fuel + 1) ma = (Step ma).bind (ExecuteFuel fuel) := by
  show (if ma.cycles > 0 then (Step ma).bind (ExecuteFuel fuel) else .ok (some ma))
    = (Step ma).bind (ExecuteFuel fuel)
  rw [if_pos h]

/-- Claim C4: for every prior register, flag and memory state, after
`CPU::Reset` the state is exactly PC = 0xFFFC, SP = 0x0100,
A = X = Y = 0, all seven flags 0, and every memory cell 0. -/
theorem C4_reset_state (c : CPU) (m : Mem) (a : Nat) :
    (c.Reset m).1.PC = 0xFFFC ∧ (c.Reset m).1.SP = 0x0100 ∧
    (c.Reset m).1.A = 0 ∧ (c.Reset m).1.X = 0 ∧ (c.Reset m).1.Y = 0 ∧
    (c.Reset m).1.C = 0 ∧ (c.Reset m).1.Z = 0 ∧ (c.Reset m).1.I = 0 ∧
    (c.Reset m).1.D = 0 ∧ (c.Reset m).1.B = 0 ∧ (c.Reset m).1.V = 0 ∧
    (c.Reset m).1.N = 0 ∧ (c.Reset m).2.Data a = 0 :=
  ⟨rfl, rfl, rfl, rfl, rfl, rfl, rfl, rfl, rfl, rfl, rfl, rfl, rfl⟩

/-- Claim C5: executing opcode 0xA9 (LDA Immediate) with operand byte v
sets A = v, Z = 1 exactly when v = 0, N = 1 exactly when bit 7 of v is
set, advances PC by 2, and consumes exactly 2 cycles. -/
theorem C5_lda_immediate (ma : Machine) (hPC : ma.cpu.PC < U16)
    (hcy : ma.cycles < U32) (hop : ma.mem.Data ma.cpu.PC % 256 = INS_LDA_IM) :
    ∃ ma2, Step ma = .ok ma2 ∧
      ma2.cpu.A = ma.mem.Data ((ma.cpu.PC + 1) % U16) % 256 ∧
      (ma2.cpu.Z = 1 ↔ ma2.cpu.A = 0) ∧
      (ma2.cpu.N = 1 ↔ ma2.cpu.A.testBit 7 = true) ∧
      ma2.cpu.PC = (ma.cpu.PC + 2) % U16 ∧
      ma2.cycles = (ma.cycles + U32 - 2) % U32 ∧
      (2 ≤ ma.cycles → ma2.cycles = ma.cycles - 2) := by
  refine ⟨_, step_lda_im ma hPC hop, rfl, ifZ _, ifN _, pcTwo _, dec1dec1 _, ?_⟩
  intro h2
  show ((ma.cycles + U32 - 1) % U32 + U32 - 1) % U32 = ma.cycles - 2
  simp only [U32] at hcy ⊢
  omega

/-- Concrete run of `C5_lda_immediate`: the LDA #$84 program from the reset
state loads A = 0x84 with Z = 0 and N = 1. -/
theorem C5_lda_immediate_witness :
    (maLdaIm.cpu.PC < U16 ∧ maLdaIm.cycles < U32 ∧
      maLdaIm.mem.Data maLdaIm.cpu.PC % 256 = INS_LDA_IM) ∧
    (∃ ma2, Step maLdaIm = .ok ma2 ∧
      ma2.cpu.A = maLdaIm.mem.Data ((maLdaIm.cpu.PC + 1) % U16) % 256 ∧
      (ma2.cpu.Z = 1 ↔ ma2.cpu.A = 0) ∧
      (ma2.cpu.N = 1 ↔ ma2.cpu.A.testBit 7 = true) ∧
      ma2.cpu.PC = (maLdaIm.cpu.PC + 2) % U16 ∧
      ma2.cycles = (maLdaIm.cycles + U32 - 2) % U32 ∧
      (2 ≤ maLdaIm.cycles → ma2.cycles = maLdaIm.cycles - 2)) :=
  ⟨⟨by decide, by decide, by decide⟩,
    C5_lda_immediate maLdaIm (by decide) (by decide) (by decide)⟩

/-- Claim C10: `CPU::ReadByte` never fails on its 8-bit address domain: it
returns the byte stored at the zero-page address and performs one
unsigned-32 decrement of the cycle counter (an exact decrement by 1
whenever the counter is positive). -/
theorem C10_readByte_total (c : CPU) (cy a : Nat) (m : Mem) (ha : a < 256) :
    c.ReadByte cy a m = .ok (m.Data a % 256, (cy + U32 - 1) % U32) ∧
    (1 ≤ cy → cy < U32 → (cy + U32 - 1) % U32 = cy - 1) := by
  constructor
  · exact readByte_eq c cy a m (lt_of_lt_of_le ha (by norm_num [MAX_MEM]))
  · intro h1 h2
    simp only [U32] at *
    omega

/-- Concrete run of `C10_readByte_total`: reading zero-page address 0x10 of
the LDA $10 image returns 0x42 and decrements 3 cycles to 2. -/
theorem C10_readByte_total_witness :
    (0x10 : Nat) < 256 ∧
    (resetCPU.ReadByte 3 0x10 memLdaZp = .ok (memLdaZp.Data 0x10 % 256, (3 + U32 - 1) % U32) ∧
      (1 ≤ 3 → (3 : Nat) < U32 → (3 + U32 - 1) % U32 = 3 - 1)) :=
  ⟨by decide, C10_readByte_total resetCPU 3 0x10 memLdaZp (by decide)⟩

/-- Claim C1: with a budget of 1 cycle and a 2-cycle LDA Immediate in
flight, the unsigned 32-bit cycle counter wraps to 2^32 - 1 instead of
stopping "slightly negative": the `while (Cycles > 0)` condition is still
true, and after two loop iterations `Execute` is still running, i.e. it
continued past the first opcode boundary at which the budget was
exhausted. -/
theorem C1_budget_wraps_past_zero :
    maBudget1.cycles = 1 ∧
    cyclesAfter (Step maBudget1) = some (U32 - 1) ∧
    stillRunning (ExecuteFuel 2 maBudget1) = true :=
  ⟨rfl, by decide, by decide⟩

/-- Claim C6: executing opcode 0xB5 (LDA Zero Page,X) reads the operand
from the effective address (base byte + X) mod 256 — an address that is
always below 256, wrapping within the zero page — and consumes exactly 4
cycles. -/
theorem C6_lda_zpx_wraps (ma : Machine) (hPC : ma.cpu.PC < U16)
    (hcy : ma.cycles < U32) (hop : ma.mem.Data ma.cpu.PC % 256 = INS_LDA_ZPX) :
    ∃ ma2, Step ma = .ok ma2 ∧
      ma2.cpu.A =
        ma.mem.Data ((ma.mem.Data ((ma.cpu.PC + 1) % U16) % 256 + ma.cpu.X) % 256) % 256 ∧
      (ma.mem.Data ((ma.cpu.PC + 1) % U16) % 256 + ma.cpu.X) % 256 < 256 ∧
      ma2.cycles = (ma.cycles + U32 - 4) % U32 ∧
      (4 ≤ ma.cycles → ma2.cycles = ma.cycles - 4) := by
  refine ⟨_, step_lda_zpx ma hPC hop, rfl, Nat.mod_lt _ (by norm_num), dec1x4 _, ?_⟩
  intro h4
  show ((((ma.cycles + U32 - 1) % U32 + U32 - 1) % U32 + U32 - 1) % U32 + U32 - 1) % U32
    = ma.cycles - 4
  simp only [U32] at hcy ⊢
  omega

/-- Concrete run of `C6_lda_zpx_wraps`: base byte 0x05 with X = 0xFF reads
from the wrapped address 0x04 (value 0x37), not from 0x104 (value 0x99). -/
theorem C6_lda_zpx_wraps_witness :
    (maLdaZpx.cpu.PC < U16 ∧ maLdaZpx.cycles < U32 ∧
      maLdaZpx.mem.Data maLdaZpx.cpu.PC % 256 = INS_LDA_ZPX) ∧
    (∃ ma2, Step maLdaZpx = .ok ma2 ∧
      ma2.cpu.A =
        maLdaZpx.mem.Data
          ((maLdaZpx.mem.Data ((maLdaZpx.cpu.PC + 1) % U16) % 256 + maLdaZpx.cpu.X) % 256) % 256 ∧
      (maLdaZpx.mem.Data ((maLdaZpx.cpu.PC + 1) % U16) % 256 + maLdaZpx.cpu.X) % 256 < 256 ∧
      ma2.cycles = (maLdaZpx.cycles + U32 - 4) % U32 ∧
      (4 ≤ maLdaZpx.cycles → ma2.cycles = maLdaZpx.cycles - 4)) ∧
    maLdaZpx.mem.Data
      ((maLdaZpx.mem.Data ((maLdaZpx.cpu.PC + 1) % U16) % 256 + maLdaZpx.cpu.X) % 256) % 256
      = 0x37 ∧
    maLdaZpx.mem.Data 0x104 = 0x99 :=
  ⟨⟨by decide, by decide, by decide⟩,
    C6_lda_zpx_wraps maLdaZpx (by decide) (by decide) (by decide),
    by decide, by decide⟩

/-- Claim C8: executing any LDA opcode (0xA9, 0xA5, 0xB5) leaves the flags
C, I, D, B, V and the registers X, Y, SP exactly unchanged. -/
theorem C8_lda_frame (ma : Machine) (hPC : ma.cpu.PC < U16)
    (hop : ma.mem.Data ma.cpu.PC % 256 = INS_LDA_IM ∨
      ma.mem.Data ma.cpu.PC % 256 = INS_LDA_ZP ∨
      ma.mem.Data ma.cpu.PC % 256 = INS_LDA_ZPX) :
    ∃ ma2, Step ma = .ok ma2 ∧
      ma2.cpu.C = ma.cpu.C ∧ ma2.cpu.I = ma.cpu.I ∧ ma2.cpu.D = ma.cpu.D ∧
      ma2.cpu.B = ma.cpu.B ∧ ma2.cpu.V = ma.cpu.V ∧
      ma2.cpu.X = ma.cpu.X ∧ ma2.cpu.Y = ma.cpu.Y ∧ ma2.cpu.SP = ma.cpu.SP := by
  rcases hop with h | h | h
  · exact ⟨_, step_lda_im ma hPC h, rfl, rfl, rfl, rfl, rfl, rfl, rfl, rfl⟩
  · exact ⟨_, step_lda_zp ma hPC h, rfl, rfl, rfl, rfl, rfl, rfl, rfl, rfl⟩
  · exact ⟨_, step_lda_zpx ma hPC h, rfl, rfl, rfl, rfl, rfl, rfl, rfl, rfl⟩

/-- Concrete run of `C8_lda_frame`: the LDA $10 (zero page) program leaves
C, I, D, B, V, X, Y and SP untouched. -/
theorem C8_lda_frame_witness :
    (maLdaZp.cpu.PC < U16 ∧ maLdaZp.mem.Data maLdaZp.cpu.PC % 256 = INS_LDA_ZP) ∧
    (∃ ma2, Step maLdaZp = .ok ma2 ∧
      ma2.cpu.C = maLdaZp.cpu.C ∧ ma2.cpu.I = maLdaZp.cpu.I ∧ ma2.cpu.D = maLdaZp.cpu.D ∧
      ma2.cpu.B = maLdaZp.cpu.B ∧ ma2.cpu.V = maLdaZp.cpu.V ∧
      ma2.cpu.X = maLdaZp.cpu.X ∧ ma2.cpu.Y = maLdaZp.cpu.Y ∧
      ma2.cpu.SP = maLdaZp.cpu.SP) :=
  ⟨⟨by decide, by decide⟩,
    C8_lda_frame maLdaZp (by decide) (Or.inr (Or.inl (by decide)))⟩

/-- Claim C9: `FetchByte` and `FetchWord` advance the 16-bit PC modulo 2^16
and always succeed (the fetch index stays below 65536); at PC = 0xFFFF,
`FetchWord` reads its low byte from 0xFFFF and its high byte from 0x0000,
leaving PC = 1. -/
theorem C9_fetch_wraparound (c : CPU) (cy : Nat) (m : Mem) (hPC : c.PC < U16) :
    c.FetchByte cy m = .ok (m.Data c.PC % 256,
      { c with PC := (c.PC + 1) % U16 }, (cy + U32 - 1) % U32) ∧
    (c.PC + 1) % U16 < U16 ∧
    c.FetchWord cy m = .ok (((m.Data c.PC % 256) |||
      ((m.Data ((c.PC + 1) % U16) % 256) <<< 8)) % U16,
      { c with PC := (c.PC + 2) % U16 }, (cy + U32 - 2) % U32) ∧
    (c.PC + 2) % U16 < U16 ∧
    (c.PC = 65535 →
      c.FetchWord cy m = .ok (((m.Data 65535 % 256) ||| ((m.Data 0 % 256) <<< 8)) % U16,
        { c with PC := 1 }, (cy + U32 - 2) % U32)) := by
  refine ⟨fetchByte_eq c cy m hPC, Nat.mod_lt _ U16_pos, ?_, Nat.mod_lt _ U16_pos, ?_⟩
  · rw [fetchWord_eq c cy m hPC, pcTwo]
  · intro h
    rw [fetchWord_eq c cy m hPC, h]
    norm_num [U16]

/-- Concrete run of `C9_fetch_wraparound` at PC = 0xFFFF on an image with
0x34 at 0xFFFF and 0x12 at 0x0000: the fetched word is 0x1234. -/
theorem C9_fetch_wraparound_witness :
    cpuWrap.PC < U16 ∧
    (cpuWrap.FetchByte 5 memWrap = .ok (memWrap.Data cpuWrap.PC % 256,
      { cpuWrap with PC := (cpuWrap.PC + 1) % U16 }, (5 + U32 - 1) % U32) ∧
    (cpuWrap.PC + 1) % U16 < U16 ∧
    cpuWrap.FetchWord 5 memWrap = .ok (((memWrap.Data cpuWrap.PC % 256) |||
      ((memWrap.Data ((cpuWrap.PC + 1) % U16) % 256) <<< 8)) % U16,
      { cpuWrap with PC := (cpuWrap.PC + 2) % U16 }, (5 + U32 - 2) % U32) ∧
    (cpuWrap.PC + 2) % U16 < U16 ∧
    (cpuWrap.PC = 65535 →
      cpuWrap.FetchWord 5 memWrap = .ok (((memWrap.Data 65535 % 256) |||
        ((memWrap.Data 0 % 256) <<< 8)) % U16,
        { cpuWrap with PC := 1 }, (5 + U32 - 2) % U32))) ∧
    ((memWrap.Data 65535 % 256) ||| ((memWrap.Data 0 % 256) <<< 8)) % U16 = 0x1234 :=
  ⟨by decide, C9_fetch_wraparound cpuWrap 5 memWrap (by decide), by decide⟩

/-- Claim C2, counterexample: `Mem::WriteWord` at address 65535 — an
address below 65536 — does not succeed (its second byte address 65536 is an
unchecked out-of-bounds store), and at address 65536 its failure is the
unchecked store, not a reported OutOfRange. -/
theorem C2_writeWord_no_check_cex :
    Mem.WriteWord zeroMem 0x1234 65535 10 = .error Err.undefinedBehavior ∧
    (65535 : Nat) < 65536 ∧
    Mem.WriteWord zeroMem 0x1234 65536 10 = .error Err.undefinedBehavior ∧
    Err.undefinedBehavior ≠ Err.outOfRange :=
  ⟨rfl, by norm_num, rfl, by decide⟩

/-- Claim C2, amended: single-byte reads and writes fail (via the bounds
assertion) exactly when the address is at least 65536 and succeed below;
`WriteWord` has no check of its own and succeeds exactly when both touched
addresses are in range, faulting with an unchecked out-of-bounds store
otherwise — in particular at address 65535. -/
theorem C2_bounds (m : Mem) (a v cy : Nat) :
    (MAX_MEM ≤ a → m.read a = .error Err.assertFail ∧
      m.write a v = .error Err.assertFail ∧
      m.WriteWord v a cy = .error Err.undefinedBehavior) ∧
    (a < MAX_MEM → m.read a = .ok (m.Data a % 256) ∧
      (∃ m2, m.write a v = .ok m2 ∧ m2.Data a = v % 256 ∧
        ∀ i, i ≠ a → m2.Data i = m.Data i)) ∧
    (a + 1 < MAX_MEM → ∃ m2, m.WriteWord v a cy = .ok (m2, (cy + U32 - 2) % U32) ∧
      m2.Data a = v % 256 ∧ m2.Data (a + 1) = v / 256 % 256 ∧
      ∀ i, i ≠ a → i ≠ a + 1 → m2.Data i = m.Data i) ∧
    (a + 1 = MAX_MEM → m.WriteWord v a cy = .error Err.undefinedBehavior) := by
  refine ⟨?_, ?_, ?_, ?_⟩
  · intro h
    have hn : ¬ a < MAX_MEM := not_lt.mpr h
    refine ⟨?_, ?_, ?_⟩
    · unfold Mem.read
      rw [if_neg hn]
    · unfold Mem.write
      rw [if_neg hn]
    · unfold Mem.WriteWord Mem.store
      rw [if_neg hn]
      simp only [bind, Except.bind]
  · intro h
    constructor
    · unfold Mem.read
      rw [if_pos h]
    · refine ⟨⟨fun i => if i = a then v % 256 else m.Data i⟩, ?_, ?_, ?_⟩
      · unfold Mem.write
        rw [if_pos h]
      · dsimp only
        rw [if_pos rfl]
      · intro i hi
        dsimp only
        rw [if_neg hi]
  · intro h
    refine ⟨_, writeWord_eq m v a cy h, ?_, ?_, ?_⟩
    · dsimp only
      rw [if_neg (by omega : ¬ a = a + 1), if_pos rfl]
      omega
    · dsimp only
      rw [if_pos rfl]
    · intro i h1 h2
      dsimp only
      rw [if_neg h2, if_neg h1]
  · intro h
    unfold Mem.WriteWord Mem.store
    rw [if_pos (by omega : a < MAX_MEM)]
    simp only [bind, Except.bind]
    rw [if_neg (by omega : ¬ a + 1 < MAX_MEM)]

/-- Concrete runs of `C2_bounds`: every access at address 70000 fails and
leaves nothing to observe, while a word write at address 16 succeeds and
stores the little-endian halves of 0x1234. -/
theorem C2_bounds_witness :
    (MAX_MEM ≤ 70000 ∧ 16 + 1 < MAX_MEM) ∧
    (zeroMem.read 70000 = .error Err.assertFail ∧
      zeroMem.write 70000 7 = .error Err.assertFail ∧
      zeroMem.WriteWord 7 70000 5 = .error Err.undefinedBehavior) ∧
    (∃ m2, zeroMem.WriteWord 0x1234 16 9 = .ok (m2, (9 + U32 - 2) % U32) ∧
      m2.Data 16 = 0x1234 % 256 ∧ m2.Data (16 + 1) = 0x1234 / 256 % 256 ∧
      ∀ i, i ≠ 16 → i ≠ 16 + 1 → m2.Data i = zeroMem.Data i) :=
  ⟨⟨by decide, by decide⟩, (C2_bounds zeroMem 70000 7 5).1 (by decide),
    (C2_bounds zeroMem 16 0x1234 9).2.2.1 (by decide)⟩

/-- Claim C3, counterexample: a state whose stack pointer is 0xFFFF fetches
opcode 0x20, and the engine faults on the out-of-bounds word write instead
of performing the described JSR effects (no PC update, no SP increment). -/
theorem C3_jsr_sp_top_faults :
    maJsrTopSP.mem.Data maJsrTopSP.cpu.PC % 256 = INS_JSR ∧
    maJsrTopSP.cpu.SP = 0xFFFF ∧
    Step maJsrTopSP = .error Err.undefinedBehavior :=
  ⟨by decide, rfl, rfl⟩

/-- Claim C3, amended: for every state with SP at most 0xFFFE that fetches
opcode 0x20, the engine fetches the little-endian target word, writes the
advanced PC minus one (the address of the instruction's last byte) as a
little-endian word at SP and SP + 1, sets PC to the target, increments SP
by one, and consumes 6 cycles in total. -/
theorem C3_jsr_effect (ma : Machine) (hPC : ma.cpu.PC < U16)
    (hSP : ma.cpu.SP + 1 < U16) (hcy : ma.cycles < U32)
    (hop : ma.mem.Data ma.cpu.PC % 256 = INS_JSR) :
    ∃ ma2, Step ma = .ok ma2 ∧
      ma2.cpu.PC = ((ma.mem.Data ((ma.cpu.PC + 1) % U16) % 256) |||
        (ma.mem.Data ((ma.cpu.PC + 2) % U16) % 256) <<< 8) % U16 ∧
      ma2.cpu.SP = ma.cpu.SP + 1 ∧
      ma2.mem.Data ma.cpu.SP = (ma.cpu.PC + 2) % U16 % 256 ∧
      ma2.mem.Data (ma.cpu.SP + 1) = (ma.cpu.PC + 2) % U16 / 256 % 256 ∧
      (∀ i, i ≠ ma.cpu.SP → i ≠ ma.cpu.SP + 1 → ma2.mem.Data i = ma.mem.Data i) ∧
      ma2.cycles = (ma.cycles + U32 - 6) % U32 ∧
      (6 ≤ ma.cycles → ma2.cycles = ma.cycles - 6) := by
  refine ⟨_, step_jsr ma hPC hSP hop, ?_, Nat.mod_eq_of_lt hSP, ?_, ?_, ?_, decJsr _, ?_⟩
  · dsimp only
    rw [pcTwo]
  · dsimp only
    rw [if_neg (by omega : ¬ ma.cpu.SP = ma.cpu.SP + 1), if_pos rfl]
    simp only [U16]
    omega
  · dsimp only
    rw [if_pos rfl]
    simp only [U16]
    omega
  · intro i h1 h2
    dsimp only
    rw [if_neg h2, if_neg h1]
  · intro h6
    show ((((ma.cycles + U32 - 1) % U32 + U32 - 2) % U32 + U32 - 2) % U32 + U32 - 1) % U32
      = ma.cycles - 6
    simp only [U32] at hcy ⊢
    omega

/-- Concrete run of `C3_jsr_effect`: the JSR $4242 program of `main` from
the reset state (PC = 0xFFFC, SP = 0x0100). -/
theorem C3_jsr_effect_witness :
    (maJsr.cpu.PC < U16 ∧ maJsr.cpu.SP + 1 < U16 ∧ maJsr.cycles < U32 ∧
      maJsr.mem.Data maJsr.cpu.PC % 256 = INS_JSR) ∧
    (∃ ma2, Step maJsr = .ok ma2 ∧
      ma2.cpu.PC = ((maJsr.mem.Data ((maJsr.cpu.PC + 1) % U16) % 256) |||
        (maJsr.mem.Data ((maJsr.cpu.PC + 2) % U16) % 256) <<< 8) % U16 ∧
      ma2.cpu.SP = maJsr.cpu.SP + 1 ∧
      ma2.mem.Data maJsr.cpu.SP = (maJsr.cpu.PC + 2) % U16 % 256 ∧
      ma2.mem.Data (maJsr.cpu.SP + 1) = (maJsr.cpu.PC + 2) % U16 / 256 % 256 ∧
      (∀ i, i ≠ maJsr.cpu.SP → i ≠ maJsr.cpu.SP + 1 → ma2.mem.Data i = maJsr.mem.Data i) ∧
      ma2.cycles = (maJsr.cycles + U32 - 6) % U32 ∧
      (6 ≤ maJsr.cycles → ma2.cycles = maJsr.cycles - 6)) :=
  ⟨⟨by decide, by decide, by decide, by decide⟩,
    C3_jsr_effect maJsr (by decide) (by decide) (by decide) (by decide)⟩

/-- Claim C7, counterexample: two states that differ only in the program
counter (same memory, cycle budget and output log) both fetch the
unassigned opcode 0xFF, and produce the identical diagnostic record
`[0xFF]` — so the engine reports the unhandled byte but not the PC at
which it occurred. -/
theorem C7_diagnostic_lacks_pc :
    outAfter (Step maUnknownA) = outAfter (Step maUnknownB) ∧
    outAfter (Step maUnknownA) = some [0xFF] ∧
    maUnknownA.cpu.PC ≠ maUnknownB.cpu.PC ∧
    maUnknownA.mem = maUnknownB.mem ∧
    maUnknownA.cycles = maUnknownB.cycles ∧
    maUnknownA.out = maUnknownB.out :=
  ⟨by decide, by decide, by decide, rfl, rfl, rfl⟩

/-- Claim C7, amended: an opcode byte with no switch case does not halt
execution and raises no fatal error: the engine appends the unhandled byte
(but not the PC) to the diagnostic log, the instruction costs exactly the 1
cycle of the opcode fetch, memory is untouched, and the loop continues with
the next byte. -/
theorem C7_unknown_opcode_continues (ma : Machine) (ins : Nat)
    (hPC : ma.cpu.PC < U16) (hcy1 : 2 ≤ ma.cycles) (hcy2 : ma.cycles < U32)
    (hop : ma.mem.Data ma.cpu.PC % 256 = ins)
    (h1 : ins ≠ INS_LDA_IM) (h2 : ins ≠ INS_LDA_ZP)
    (h3 : ins ≠ INS_LDA_ZPX) (h4 : ins ≠ INS_JSR) :
    ∃ ma2, Step ma = .ok ma2 ∧
      ma2.out = ma.out ++ [ins] ∧
      ma2.cycles = ma.cycles - 1 ∧
      0 < ma2.cycles ∧
      ma2.cpu.PC = (ma.cpu.PC + 1) % U16 ∧
      ma2.mem = ma.mem ∧
      (∀ fuel, ExecuteFuel (fuel + 1) ma = ExecuteFuel fuel ma2) := by
  have hs := step_unknown ma ins hPC hop h1 h2 h3 h4
  refine ⟨_, hs, rfl, ?_, ?_, rfl, rfl, ?_⟩
  · show (ma.cycles + U32 - 1) % U32 = ma.cycles - 1
    simp only [U32] at hcy2 ⊢
    omega
  · show 0 < (ma.cycles + U32 - 1) % U32
    simp only [U32] at hcy2 ⊢
    omega
  · intro fuel
    rw [executeFuel_succ fuel ma (by omega), hs]
    rfl

/-- Concrete run of `C7_unknown_opcode_continues`: the unassigned byte 0xFF
at PC = 0xFFFC with budget 3 costs 1 cycle, logs 0xFF, and the loop goes
on. -/
theorem C7_unknown_opcode_continues_witness :
    (maUnknownA.cpu.PC < U16 ∧ 2 ≤ maUnknownA.cycles ∧ maUnknownA.cycles < U32 ∧
      maUnknownA.mem.Data maUnknownA.cpu.PC % 256 = 0xFF ∧
      (0xFF : Nat) ≠ INS_LDA_IM ∧ (0xFF : Nat) ≠ INS_LDA_ZP ∧
      (0xFF : Nat) ≠ INS_LDA_ZPX ∧ (0xFF : Nat) ≠ INS_JSR) ∧
    (∃ ma2, Step maUnknownA = .ok ma2 ∧
      ma2.out = maUnknownA.out ++ [0xFF] ∧
      ma2.cycles = maUnknownA.cycles - 1 ∧
      0 < ma2.cycles ∧
      ma2.cpu.PC = (maUnknownA.cpu.PC + 1) % U16 ∧
      ma2.mem = maUnknownA.mem ∧
      (∀ fuel, ExecuteFuel (fuel + 1) maUnknownA = ExecuteFuel fuel ma2)) :=
  ⟨⟨by decide, by decide, by decide, by decide, by decide, by decide, by decide, by decide⟩,
    C7_unknown_opcode_continues maUnknownA 0xFF (by decide) (by decide) (by decide)
      (by decide) (by decide) (by decide) (by decide) (by decide)⟩

end Emu6502
